import Mathlib

/-! # clip-processor: a shallow embedding of `services/clip-processor/main.go`

The service has four HTTP handlers.  The three that the specification constrains are
embedded here: `createClipHandler`, `listClipsHandler` and `getClipHandler`, together with
the helpers `downloadFromGCS`, `extractClip` and `uploadToGCS`.

Effects are made explicit.  The local filesystem, the Firestore collection and the log of
collaborator calls form a `World` that is threaded through every function; the outcome of
each call that leaves the process (object storage, the two external processes, the
Firestore write, the UUID generator, the clock) is read from an `Env`.
-/

namespace ClipProcessor

/-! ## Library layer: `path/filepath` on a Unix target -/

namespace filepath

/-- Go `os.IsPathSeparator` on Unix. -/
def isPathSeparator (c : Char) : Bool := c == '/'

/-- The tests `r+1 == n || os.IsPathSeparator(path[r+1])` of `Clean`, on the unread input. -/
def atElemEnd : List Char → Bool
  | [] => true
  | d :: _ => isPathSeparator d

/-- The inner loop of the `..` case of `Clean`:
`for out.w > dotdot && !os.IsPathSeparator(out.index(out.w)) { out.w-- }`. -/
def backtrack (out : List Char) (dotdot : Nat) : Nat → Nat
  | 0 => 0
  | w + 1 =>
    if w + 1 > dotdot && !isPathSeparator (out.getD (w + 1) '/') then backtrack out dotdot w
    else w + 1

/-- The main loop `for r < n { switch ... }` of `Clean`.  `rest` is `path[r:]`, `out` is the
written part of the buffer (`out.w = out.length`).  Every round reads at least one byte, so
`n` rounds are enough; the first argument counts them down. -/
def cleanLoop (rooted : Bool) : Nat → List Char → List Char → Nat → List Char
  | 0, _, out, _ => out
  | _ + 1, [], out, _ => out
  | fuel + 1, c :: tl, out, dotdot =>
    if isPathSeparator c then
      -- empty path element
      cleanLoop rooted fuel tl out dotdot
    else if c == '.' && atElemEnd tl then
      -- . element
      cleanLoop rooted fuel tl out dotdot
    else if c == '.' && tl.head? == some '.' && atElemEnd (tl.drop 1) then
      -- .. element: remove to last separator
      if out.length > dotdot then
        cleanLoop rooted fuel (tl.drop 1)
          (out.take (backtrack out dotdot (out.length - 1))) dotdot
      else if !rooted then
        let out1 := if out.length > 0 then out ++ ['/'] else out
        let out2 := out1 ++ ['.', '.']
        cleanLoop rooted fuel (tl.drop 1) out2 out2.length
      else
        cleanLoop rooted fuel (tl.drop 1) out dotdot
    else
      -- real path element: add slash if needed, then copy the element
      let out1 :=
        if (rooted && out.length != 1) || (!rooted && out.length != 0) then out ++ ['/']
        else out
      cleanLoop rooted fuel
        ((c :: tl).dropWhile (fun x => !isPathSeparator x))
        (out1 ++ (c :: tl).takeWhile (fun x => !isPathSeparator x)) dotdot

/-- Go `filepath.Clean` on the characters of a path (no volume name on Unix). -/
def cleanChars (p : List Char) : List Char :=
  match p with
  | [] => ['.']
  | c :: tl =>
    let rooted := isPathSeparator c
    let out :=
      if rooted then cleanLoop true (c :: tl).length tl ['/'] 1
      else cleanLoop false (c :: tl).length (c :: tl) [] 0
    if out.length = 0 then ['.'] else out

/-- Go `filepath.Clean`. -/
def Clean (path : String) : String := String.mk (cleanChars path.data)

/-- Go `filepath.Join`: the elements from the first non-empty one on are joined with `/` and
the result is cleaned; with no non-empty element the result is the empty string. -/
def Join (elem : List String) : String :=
  match elem.dropWhile (fun e => e == "") with
  | [] => ""
  | es => Clean (String.intercalate "/" es)

end filepath

/-! ## Data model -/

/-- A Go `float64`, kept as its 64-bit pattern: the service never computes with a duration,
it only passes the value on. -/
structure Float64 where
  bits : Nat
  deriving DecidableEq, Repr

/-- Whether a `float64` is a finite number: its exponent field, bits 52 to 62, is not all
ones.  The values that are not finite are NaN and the two infinities. -/
def Float64.isFinite (f : Float64) : Bool :=
  (f.bits / 4503599627370496) % 2048 != 2047

/-- A `time.Time`, as nanoseconds since the Unix epoch. -/
structure Time where
  unixNano : Int
  deriving DecidableEq, Repr

/-- Whether `Time.MarshalJSON` accepts the instant, read in UTC: the year is within 0 to
9999, that is from `0000-01-01T00:00:00Z` up to but not including `10000-01-01T00:00:00Z`. -/
def Time.marshalable (t : Time) : Bool :=
  decide (-62167219200000000000 ≤ t.unixNano) && decide (t.unixNano < 253402300800000000000)

/-- Go `ClipRequest`: the decoded body of `POST /clip`. -/
structure ClipRequest where
  StreamID : String
  StartTime : String
  EndTime : String
  Title : String
  deriving DecidableEq, Repr

/-- Go `ClipResponse`: the value encoded as the body of a successful `POST /clip`. -/
structure ClipResponse where
  ClipID : String
  URL : String
  Duration : Float64
  Message : String
  deriving DecidableEq, Repr

/-- Go `ClipMetadata`: the Clip Record written to and read from Firestore. -/
structure ClipMetadata where
  ClipID : String
  StreamID : String
  Title : String
  StartTime : String
  EndTime : String
  Duration : Float64
  URL : String
  CreatedAt : Time
  deriving DecidableEq, Repr

/-- The package-level configuration read from the process environment. -/
structure Config where
  rawBucket : String
  clipsBucket : String
  deriving DecidableEq, Repr

/-- A Firestore field value. -/
inductive Value
  | null
  | bool (b : Bool)
  | integer (i : Int)
  | double (f : Float64)
  | string (s : String)
  | timestamp (t : Time)
  deriving DecidableEq, Repr

/-- A stored Firestore document: field names with their values. -/
abbrev Document := List (String × Value)

/-- A Go slice of Clip Records: `none` is the nil slice, `some xs` a non-nil slice. -/
abbrev ClipSlice := Option (List ClipMetadata)

/-- Go `append(clips, clip)`: the result is never nil. -/
def ClipSlice.append (clips : ClipSlice) (clip : ClipMetadata) : ClipSlice :=
  match clips with
  | none => some [clip]
  | some xs => some (xs ++ [clip])

/-- The elements of a slice; the nil slice has none. -/
def ClipSlice.elems (clips : ClipSlice) : List ClipMetadata :=
  match clips with
  | none => []
  | some xs => xs

/-- The JSON text that `json.NewEncoder(w).Encode(v)` writes, by the shape of `v`. -/
inductive JSON
  | null
  | clipResponse (r : ClipResponse)
  | clipMetadata (m : ClipMetadata)
  | array (items : List ClipMetadata)
  deriving DecidableEq, Repr

/-- Whether `encoding/json` can encode a `ClipResponse`: strings always encode, a
`float64` only when it is finite (`UnsupportedValueError` otherwise). -/
def ClipResponse.encodable (r : ClipResponse) : Bool := r.Duration.isFinite

/-- Whether `encoding/json` can encode a `ClipMetadata`: the duration must be finite and
the creation time must be accepted by `Time.MarshalJSON`. -/
def ClipMetadata.encodable (m : ClipMetadata) : Bool :=
  m.Duration.isFinite && m.CreatedAt.marshalable

/-- Go `encoding/json` on a `ClipResponse`: `none` when the encoder returns an error. -/
def encodeClipResponse (r : ClipResponse) : Option JSON :=
  if r.encodable then some (JSON.clipResponse r) else none

/-- Go `encoding/json` on a `ClipMetadata`: `none` when the encoder returns an error. -/
def encodeClipMetadata (m : ClipMetadata) : Option JSON :=
  if m.encodable then some (JSON.clipMetadata m) else none

/-- Go `encoding/json` on a `[]ClipMetadata`: a nil slice encodes as the JSON value `null`,
a non-nil slice as a JSON array; `none` when an element cannot be encoded and the encoder
returns an error. -/
def encodeClips (clips : ClipSlice) : Option JSON :=
  match clips with
  | none => some JSON.null
  | some xs => if xs.all ClipMetadata.encodable then some (JSON.array xs) else none

/-- Whether a written JSON value is an array. -/
def JSON.isArray : JSON → Bool
  | JSON.array _ => true
  | _ => false

/-- What a handler wrote to the response body. -/
inductive Body
  | empty
  | text (s : String)
  | json (v : JSON)
  deriving DecidableEq, Repr

/-- The HTTP response a handler leaves behind. -/
structure Response where
  status : Nat
  contentType : String
  body : Body
  deriving DecidableEq, Repr

/-- Go `http.Error(w, msg, code)`: plain text, the given status, the message and a newline. -/
def httpError (msg : String) (code : Nat) : Response :=
  { status := code, contentType := "text/plain; charset=utf-8", body := Body.text (msg ++ "\n") }

/-- The response after `w.Header().Set("Content-Type", "application/json")` and
`json.NewEncoder(w).Encode(v)`, whose error every handler discards.  The encoder marshals
the whole value before it writes: on success the text is written and the status is the
implicit 200; on an error nothing is written and the server sends 200 with an empty body
when the handler returns. -/
def writeJSON (encoded : Option JSON) : Response :=
  { status := 200, contentType := "application/json",
    body := match encoded with
      | some v => Body.json v
      | none => Body.empty }

/-! ## Effects -/

/-- A call that leaves the handler: storage, local files, external processes, Firestore. -/
inductive Call
  | gcsNewReader (bucket object : String)
  | osCreate (path : String)
  | gcsRead (bucket object path : String)
  | exec (name : String) (args : List String)
  | osOpen (path : String)
  | gcsWrite (bucket object path : String)
  | gcsClose (bucket object : String)
  | firestoreSet (collection doc : String) (data : ClipMetadata)
  | osRemove (path : String)
  deriving DecidableEq, Repr

/-- The state around one request. -/
structure World where
  /-- Paths that exist on the local filesystem. -/
  files : List String
  /-- The Firestore collection `clips`: document key and stored document. -/
  clips : List (String × Document)
  /-- The calls made so far, oldest first. -/
  log : List Call
  deriving DecidableEq, Repr

/-- How an external process ended: `err = none` is exit status 0. -/
structure ExecResult where
  err : Option String
  output : String
  /-- Whether the process left a file at its output path. -/
  wroteOutput : Bool
  deriving DecidableEq, Repr

/-- The behaviour of everything outside the handler during one request. -/
structure Env where
  /-- Go `uuid.New().String()`. -/
  newUUID : String
  /-- Go `time.Now()`. -/
  now : Time
  /-- Go `storageClient.Bucket(bucket).Object(object).NewReader(ctx)`. -/
  newReader : String → String → Except String Unit
  /-- Go `os.Create(path)`. -/
  create : String → Except String Unit
  /-- Go `f.ReadFrom(rc)` for the given bucket and object. -/
  readFrom : String → String → Except String Unit
  /-- Running `ffmpeg` with the given arguments; a run without error leaves the output. -/
  ffmpeg : List String → ExecResult
  /-- Running `ffprobe` with the given arguments: its standard output, or an error. -/
  ffprobe : List String → Except String String
  /-- Go `fmt.Sscanf(s, "%f", &duration)`. -/
  sscanf : String → Except String Float64
  /-- Go `os.Open(path)` of a file that exists. -/
  openFile : String → Except String Unit
  /-- Go `wc.ReadFrom(f)` for the given bucket and object. -/
  writeFrom : String → String → Except String Unit
  /-- Go `wc.Close()` for the given bucket and object. -/
  closeWriter : String → String → Except String Unit
  /-- Whether `Doc(key).Set(ctx, data)` fails. -/
  setDoc : String → ClipMetadata → Except String Unit
  /-- Whether `Doc(key).Get(ctx)` fails for a reason other than the document being absent
  (unavailable, permission denied, cancelled context). -/
  getDoc : String → Except String Unit
  /-- How Firestore stores a Clip Record. -/
  toDoc : ClipMetadata → Document
  /-- Go `doc.DataTo(&clip)`: `none` when the document cannot be deserialized. -/
  dataTo : Document → Option ClipMetadata

/-- Record a call. -/
def World.call (w : World) (c : Call) : World :=
  { w with log := w.log ++ [c] }

/-- A file comes to exist at `path`. -/
def World.addFile (w : World) (path : String) : World :=
  { w with files := if path ∈ w.files then w.files else path :: w.files }

/-- Go `os.Remove(path)`; the error is ignored by every caller. -/
def osRemove (path : String) (w : World) : World :=
  { (w.call (Call.osRemove path)) with files := w.files.filter (fun p => p != path) }

/-- Store `doc` under `key`, replacing what was there. -/
def putDoc (key : String) (doc : Document) (clips : List (String × Document)) :
    List (String × Document) :=
  (key, doc) :: clips.filter (fun kv => kv.1 != key)

/-- Go `firestoreClient.Collection("clips").Doc(key).Get(ctx)`: an error when the call
itself fails or when no document is stored under `key`, the stored document otherwise. -/
def firestoreGet (env : Env) (key : String) (w : World) : Except String Document :=
  match env.getDoc key with
  | Except.error err => Except.error err
  | Except.ok _ =>
    match w.clips.lookup key with
    | some doc => Except.ok doc
    | none => Except.error "rpc error: code = NotFound"

/-! ## Helpers of `main.go` -/

/-- Go `downloadFromGCS(ctx, bucket, object, destPath)`. -/
def downloadFromGCS (env : Env) (bucket object destPath : String) (w : World) :
    Except String Unit × World :=
  let w1 := w.call (Call.gcsNewReader bucket object)
  match env.newReader bucket object with
  | Except.error err => (Except.error ("failed to open object reader: " ++ err), w1)
  | Except.ok _ =>
    let w2 := w1.call (Call.osCreate destPath)
    match env.create destPath with
    | Except.error err => (Except.error ("failed to create local file: " ++ err), w2)
    | Except.ok _ =>
      let w3 := (w2.addFile destPath).call (Call.gcsRead bucket object destPath)
      match env.readFrom bucket object with
      | Except.error err => (Except.error ("failed to download file: " ++ err), w3)
      | Except.ok _ => (Except.ok (), w3)

/-- Go `uploadToGCS(ctx, bucket, object, srcPath)`. -/
def uploadToGCS (env : Env) (bucket object srcPath : String) (w : World) :
    Except String Unit × World :=
  let w1 := w.call (Call.osOpen srcPath)
  let opened : Except String Unit :=
    if srcPath ∈ w.files then env.openFile srcPath
    else Except.error ("open " ++ srcPath ++ ": no such file or directory")
  match opened with
  | Except.error err => (Except.error ("failed to open local file: " ++ err), w1)
  | Except.ok _ =>
    let w2 := w1.call (Call.gcsWrite bucket object srcPath)
    match env.writeFrom bucket object with
    | Except.error err => (Except.error ("failed to upload file: " ++ err), w2)
    | Except.ok _ =>
      let w3 := w2.call (Call.gcsClose bucket object)
      match env.closeWriter bucket object with
      | Except.error err => (Except.error ("failed to close writer: " ++ err), w3)
      | Except.ok _ => (Except.ok (), w3)

/-- The argument list of the `ffmpeg` command in `extractClip`. -/
def ffmpegArgs (inputPath outputPath startTime endTime : String) : List String :=
  ["-i", inputPath, "-ss", startTime, "-to", endTime, "-vn", "-acodec", "libmp3lame",
   "-q:a", "2", "-y", outputPath]

/-- The argument list of the `ffprobe` command in `extractClip`. -/
def ffprobeArgs (outputPath : String) : List String :=
  ["-v", "error", "-show_entries", "format=duration", "-of",
   "default=noprint_wrappers=1:nokey=1", outputPath]

/-- Go `extractClip(inputPath, outputPath, startTime, endTime)`. -/
def extractClip (env : Env) (inputPath outputPath startTime endTime : String) (w : World) :
    Except String Float64 × World :=
  let args := ffmpegArgs inputPath outputPath startTime endTime
  let w1 := w.call (Call.exec "ffmpeg" args)
  let run := env.ffmpeg args
  match run.err with
  | some err =>
    (Except.error ("ffmpeg failed: " ++ err ++ ", output: " ++ run.output),
      if run.wroteOutput then w1.addFile outputPath else w1)
  | none =>
    let w2 := (w1.addFile outputPath).call (Call.exec "ffprobe" (ffprobeArgs outputPath))
    match env.ffprobe (ffprobeArgs outputPath) with
    | Except.error err => (Except.error ("ffprobe failed: " ++ err), w2)
    | Except.ok durationOutput =>
      match env.sscanf durationOutput with
      | Except.error err => (Except.error ("failed to parse duration: " ++ err), w2)
      | Except.ok duration => (Except.ok duration, w2)

/-- Go `firestoreClient.Collection("clips").Doc(key).Set(ctx, data)`; the caller only logs an
error.  A successful write stores the record under `key`. -/
def firestoreSet (env : Env) (key : String) (data : ClipMetadata) (w : World) : World :=
  let w1 := w.call (Call.firestoreSet "clips" key data)
  match env.setDoc key data with
  | Except.error _ => w1
  | Except.ok _ => { w1 with clips := putDoc key (env.toDoc data) w1.clips }

/-! ## Handlers -/

/-- The name of the source object and of its local copy: `fmt.Sprintf("%s.mp4", req.StreamID)`. -/
def rawFile (req : ClipRequest) : String := req.StreamID ++ ".mp4"

/-- The local path of the source copy: `filepath.Join("/tmp", rawFile)`. -/
def localRawPath (req : ClipRequest) : String := filepath.Join ["/tmp", rawFile req]

/-- The name of the clip object and of the local clip: `fmt.Sprintf("%s.mp3", clipID)`. -/
def clipFileName (clipID : String) : String := clipID ++ ".mp3"

/-- The local path of the clip: `filepath.Join("/tmp", clipFileName)`. -/
def localClipPath (clipID : String) : String := filepath.Join ["/tmp", clipFileName clipID]

/-- The public address:
`fmt.Sprintf("https://storage.googleapis.com/%s/%s", clipsBucket, clipFileName)`. -/
def clipURL (cfg : Config) (clipID : String) : String :=
  "https://storage.googleapis.com/" ++ cfg.clipsBucket ++ "/" ++ clipFileName clipID

/-- The Clip Record that `createClipHandler` assembles. -/
def metadata (env : Env) (cfg : Config) (req : ClipRequest) (duration : Float64) :
    ClipMetadata :=
  { ClipID := env.newUUID, StreamID := req.StreamID, Title := req.Title,
    StartTime := req.StartTime, EndTime := req.EndTime, Duration := duration,
    URL := clipURL cfg env.newUUID, CreatedAt := env.now }

/-- The `ClipResponse` that `createClipHandler` assembles. -/
def response (env : Env) (cfg : Config) (duration : Float64) : ClipResponse :=
  { ClipID := env.newUUID, URL := clipURL cfg env.newUUID, Duration := duration,
    Message := "Clip created successfully" }

/-- Go `createClipHandler`.  `decoded` is the result of decoding the request body (`none` when
decoding fails).  The two `defer os.Remove(...)` run when the handler returns, the later one
first, on every path after the statement that registers them. -/
def createClipHandler (env : Env) (cfg : Config) (decoded : Option ClipRequest) (w : World) :
    Response × World :=
  match decoded with
  | none => (httpError "Invalid request body" 400, w)
  | some req =>
    if req.StreamID == "" || req.StartTime == "" || req.EndTime == "" then
      (httpError "Missing required fields: stream_id, start_time, end_time" 400, w)
    else
      let clipID := env.newUUID
      match downloadFromGCS env cfg.rawBucket (rawFile req) (localRawPath req) w with
      | (Except.error err, w1) =>
        (httpError ("Failed to download raw file: " ++ err) 500, w1)
      | (Except.ok _, w1) =>
        -- defer os.Remove(localRawPath)
        match extractClip env (localRawPath req) (localClipPath clipID) req.StartTime
            req.EndTime w1 with
        | (Except.error err, w2) =>
          (httpError ("Failed to extract clip: " ++ err) 500, osRemove (localRawPath req) w2)
        | (Except.ok duration, w2) =>
          -- defer os.Remove(localClipPath)
          match uploadToGCS env cfg.clipsBucket (clipFileName clipID) (localClipPath clipID)
              w2 with
          | (Except.error err, w3) =>
            (httpError ("Failed to upload clip: " ++ err) 500,
              osRemove (localRawPath req) (osRemove (localClipPath clipID) w3))
          | (Except.ok _, w3) =>
            let w4 := firestoreSet env clipID (metadata env cfg req duration) w3
            (writeJSON (encodeClipResponse (response env cfg duration)),
              osRemove (localRawPath req) (osRemove (localClipPath clipID) w4))

/-- The loop of `listClipsHandler` over the documents the iterator yields before its first
error (`iterator.Done` or a failure), which ends the loop. -/
def listLoop (env : Env) : List Document → ClipSlice → ClipSlice
  | [], clips => clips
  | doc :: rest, clips =>
    match env.dataTo doc with
    | none => listLoop env rest clips
    | some clip => listLoop env rest (clips.append clip)

/-- Go `listClipsHandler`, on the documents yielded by
`Collection("clips").OrderBy("created_at", firestore.Desc).Documents(ctx)`. -/
def listClipsHandler (env : Env) (yielded : List Document) : Response :=
  writeJSON (encodeClips (listLoop env yielded none))

/-- Go `getClipHandler` for the path variable `clip_id`. -/
def getClipHandler (env : Env) (clipID : String) (w : World) : Response :=
  match firestoreGet env clipID w with
  | Except.error _ => httpError "Clip not found" 404
  | Except.ok doc =>
    match env.dataTo doc with
    | none => httpError "Error parsing clip" 500
    | some clip => writeJSON (encodeClipMetadata clip)

/-! ## Reading the log -/

/-- The steps of the pipeline of `createClipHandler`. -/
inductive Step
  | fetch
  | extract
  | publish
  | record
  deriving DecidableEq, Repr

/-- The pipeline step a call starts: each helper is entered through one call that it always
makes first (`NewReader`, the `ffmpeg` run, `os.Open`), and the record step is the `Set`. -/
def Call.step : Call → Option Step
  | Call.gcsNewReader _ _ => some Step.fetch
  | Call.exec name _ => if name == "ffmpeg" then some Step.extract else none
  | Call.osOpen _ => some Step.publish
  | Call.firestoreSet _ _ _ => some Step.record
  | _ => none

/-- The pipeline steps run, in order. -/
def stepsRun (log : List Call) : List Step := log.filterMap Call.step

/-- The Clip Records handed to Firestore, with their document keys, in order. -/
def recordsWritten (log : List Call) : List (String × ClipMetadata) :=
  log.filterMap fun c =>
    match c with
    | Call.firestoreSet _ key data => some (key, data)
    | _ => none

/-- The objects uploaded to storage: bucket, object name and local source path. -/
def uploads (log : List Call) : List (String × String × String) :=
  log.filterMap fun c =>
    match c with
    | Call.gcsWrite bucket object path => some (bucket, object, path)
    | _ => none

/-! ## A concrete environment, used to run the handlers -/

/-- One way Firestore can store a Clip Record: one field per struct tag. -/
def sampleToDoc (m : ClipMetadata) : Document :=
  [("clip_id", Value.string m.ClipID), ("stream_id", Value.string m.StreamID),
   ("title", Value.string m.Title), ("start_time", Value.string m.StartTime),
   ("end_time", Value.string m.EndTime), ("duration", Value.double m.Duration),
   ("url", Value.string m.URL), ("created_at", Value.timestamp m.CreatedAt)]

/-- A deserializer for `sampleToDoc`: it fails on a field that is absent or of another
type. -/
def sampleDataTo (d : Document) : Option ClipMetadata :=
  match d.lookup "clip_id", d.lookup "stream_id", d.lookup "title", d.lookup "start_time",
    d.lookup "end_time", d.lookup "duration", d.lookup "url", d.lookup "created_at" with
  | some (Value.string c), some (Value.string s), some (Value.string t),
    some (Value.string st), some (Value.string en), some (Value.double du),
    some (Value.string u), some (Value.timestamp ts) =>
    some { ClipID := c, StreamID := s, Title := t, StartTime := st, EndTime := en,
           Duration := du, URL := u, CreatedAt := ts }
  | _, _, _, _, _, _, _, _ => none

/-- An environment in which every call succeeds and the probe reports 15 seconds
(`0x402E000000000000`). -/
def sampleEnv : Env :=
  { newUUID := "0b1c2d3e"
    now := { unixNano := 1700000000000000000 }
    newReader := fun _ _ => Except.ok ()
    create := fun _ => Except.ok ()
    readFrom := fun _ _ => Except.ok ()
    ffmpeg := fun _ => { err := none, output := "", wroteOutput := true }
    ffprobe := fun _ => Except.ok "15.000000\n"
    sscanf := fun _ => Except.ok { bits := 4624633867356078080 }
    openFile := fun _ => Except.ok ()
    writeFrom := fun _ _ => Except.ok ()
    closeWriter := fun _ _ => Except.ok ()
    setDoc := fun _ _ => Except.ok ()
    getDoc := fun _ => Except.ok ()
    toDoc := sampleToDoc
    dataTo := sampleDataTo }

/-- The configuration used with `sampleEnv`. -/
def sampleConfig : Config := { rawBucket := "raw", clipsBucket := "clips" }

/-- The request of the scenario in the specification. -/
def sampleRequest : ClipRequest :=
  { StreamID := "abc123", StartTime := "00:00:10", EndTime := "00:00:25", Title := "" }

/-- A world with no local files, no stored records and an empty log. -/
def emptyWorld : World := { files := [], clips := [], log := [] }

/-- The calls made between two states of the world. -/
def newCalls (before after : World) : List Call := after.log.drop before.log.length

/-- As `sampleEnv`, but the copy from storage into the local file fails after the file was
created. -/
def copyFailEnv : Env :=
  { sampleEnv with readFrom := fun _ _ => Except.error "unexpected EOF" }

/-- As `sampleEnv`, but the duration probe fails after `ffmpeg` produced the clip. -/
def probeFailEnv : Env :=
  { sampleEnv with ffprobe := fun _ => Except.error "exit status 1" }

/-- As `sampleEnv`, but the upload fails when the writer is closed. -/
def uploadFailEnv : Env :=
  { sampleEnv with closeWriter := fun _ _ => Except.error "googleapi: Error 403" }

/-- As `sampleEnv`, but the Firestore write fails. -/
def setFailEnv : Env :=
  { sampleEnv with setDoc := fun _ _ => Except.error "rpc error: code = Unavailable" }

/-- A request whose `start_time` is missing. -/
def missingStartRequest : ClipRequest :=
  { StreamID := "abc123", StartTime := "", EndTime := "00:00:25", Title := "" }

/-- The request of `sampleRequest` with another time range. -/
def otherRangeRequest : ClipRequest :=
  { StreamID := "abc123", StartTime := "90", EndTime := "95.5", Title := "later" }

/-- A request for the same recording as `sampleRequest`, named through a `.` element. -/
def dotSlashRequest : ClipRequest :=
  { StreamID := "./abc123", StartTime := "00:00:10", EndTime := "00:00:25", Title := "" }

/-- A request for another recording. -/
def otherStreamRequest : ClipRequest :=
  { StreamID := "abc124", StartTime := "00:00:10", EndTime := "00:00:25", Title := "" }

/-- The entries of a JSON array of Clip Records; any other value has none. -/
def JSON.items : JSON → List ClipMetadata
  | JSON.array xs => xs
  | _ => []

/-- The Clip Records a response lists. -/
def Response.entries (r : Response) : List ClipMetadata :=
  match r.body with
  | Body.json v => v.items
  | _ => []

/-- A stored record created at second 2000. -/
def newerDoc : Document :=
  sampleToDoc
    { ClipID := "c2", StreamID := "abc123", Title := "second", StartTime := "30",
      EndTime := "40", Duration := { bits := 4621819117588971520 },
      URL := "https://storage.googleapis.com/clips/c2.mp3",
      CreatedAt := { unixNano := 2000000000000 } }

/-- A stored record created at second 1000. -/
def olderDoc : Document :=
  sampleToDoc
    { ClipID := "c1", StreamID := "abc123", Title := "first", StartTime := "10",
      EndTime := "25", Duration := { bits := 4624633867356078080 },
      URL := "https://storage.googleapis.com/clips/c1.mp3",
      CreatedAt := { unixNano := 1000000000000 } }

/-- A stored document, created at second 1500, whose `duration` is a string: it cannot be
deserialized into a Clip Record. -/
def junkDoc : Document :=
  [("clip_id", Value.string "c0"), ("duration", Value.string "long"),
   ("created_at", Value.timestamp { unixNano := 1500000000000 })]

/-- As `sampleEnv`, but the probe prints `nan` and `Sscanf` reads it as a NaN
(`0x7FF8000000000000`). -/
def nanEnv : Env :=
  { sampleEnv with
    ffprobe := fun _ => Except.ok "nan\n"
    sscanf := fun _ => Except.ok { bits := 9221120237041090560 } }

/-- As `sampleEnv`, but `Get` fails although the service is asked for a stored document. -/
def getFailEnv : Env :=
  { sampleEnv with getDoc := fun _ => Except.error "rpc error: code = Unavailable" }

/-- A stored record, created at second 1500, whose duration is a NaN. -/
def nanDoc : Document :=
  sampleToDoc
    { ClipID := "c3", StreamID := "abc123", Title := "third", StartTime := "50",
      EndTime := "60", Duration := { bits := 9221120237041090560 },
      URL := "https://storage.googleapis.com/clips/c3.mp3",
      CreatedAt := { unixNano := 1500000000000 } }

/-- A world whose collection holds `olderDoc` under the key `c1`. -/
def storedWorld : World := { files := [], clips := [("c1", olderDoc)], log := [] }

/-- Whether `a` may come before `b` in a listing by descending `created_at`: when both
documents deserialize, the creation timestamp of `b` is not later than that of `a`. -/
def newerFirst (env : Env) (a b : Document) : Bool :=
  match env.dataTo a, env.dataTo b with
  | some ma, some mb => decide (mb.CreatedAt.unixNano ≤ ma.CreatedAt.unixNano)
  | _, _ => true

/-- What a run of `createClipHandler` did, read from its log and from Firestore. -/
structure Summary where
  status : Nat
  steps : List Step
  records : List (String × ClipMetadata)
  uploaded : List (String × String × String)
  deriving DecidableEq, Repr

/-- The summary of a run that started in `w` and ended with `res`. -/
def summarize (w : World) (res : Response × World) : Summary :=
  { status := res.1.status
    steps := stepsRun (newCalls w res.2)
    records := recordsWritten (newCalls w res.2)
    uploaded := uploads (newCalls w res.2) }

/-! ## Lemmas about the helpers -/

theorem createClipHandler_valid_cond (req : ClipRequest)
    (hvalid : req.StreamID ≠ "" ∧ req.StartTime ≠ "" ∧ req.EndTime ≠ "") :
    (req.StreamID == "" || req.StartTime == "" || req.EndTime == "") = false := by
  obtain ⟨h1, h2, h3⟩ := hvalid
  simp [h1, h2, h3]

theorem createClipHandler_fetch_error (env : Env) (cfg : Config) (req : ClipRequest)
    (w w1 : World) (err : String)
    (hvalid : req.StreamID ≠ "" ∧ req.StartTime ≠ "" ∧ req.EndTime ≠ "")
    (h1 : downloadFromGCS env cfg.rawBucket (rawFile req) (localRawPath req) w
      = (Except.error err, w1)) :
    createClipHandler env cfg (some req) w
      = (httpError ("Failed to download raw file: " ++ err) 500, w1) := by
  simp only [createClipHandler, createClipHandler_valid_cond req hvalid, h1]
  simp

theorem createClipHandler_extract_error (env : Env) (cfg : Config) (req : ClipRequest)
    (w w1 w2 : World) (err : String)
    (hvalid : req.StreamID ≠ "" ∧ req.StartTime ≠ "" ∧ req.EndTime ≠ "")
    (h1 : downloadFromGCS env cfg.rawBucket (rawFile req) (localRawPath req) w
      = (Except.ok (), w1))
    (h2 : extractClip env (localRawPath req) (localClipPath env.newUUID) req.StartTime
      req.EndTime w1 = (Except.error err, w2)) :
    createClipHandler env cfg (some req) w
      = (httpError ("Failed to extract clip: " ++ err) 500, osRemove (localRawPath req) w2) := by
  simp only [createClipHandler, createClipHandler_valid_cond req hvalid, h1, h2]
  simp

theorem createClipHandler_upload_error (env : Env) (cfg : Config) (req : ClipRequest)
    (w w1 w2 w3 : World) (duration : Float64) (err : String)
    (hvalid : req.StreamID ≠ "" ∧ req.StartTime ≠ "" ∧ req.EndTime ≠ "")
    (h1 : downloadFromGCS env cfg.rawBucket (rawFile req) (localRawPath req) w
      = (Except.ok (), w1))
    (h2 : extractClip env (localRawPath req) (localClipPath env.newUUID) req.StartTime
      req.EndTime w1 = (Except.ok duration, w2))
    (h3 : uploadToGCS env cfg.clipsBucket (clipFileName env.newUUID)
      (localClipPath env.newUUID) w2 = (Except.error err, w3)) :
    createClipHandler env cfg (some req) w
      = (httpError ("Failed to upload clip: " ++ err) 500,
          osRemove (localRawPath req) (osRemove (localClipPath env.newUUID) w3)) := by
  simp only [createClipHandler, createClipHandler_valid_cond req hvalid, h1, h2, h3]
  simp

theorem createClipHandler_all_ok (env : Env) (cfg : Config) (req : ClipRequest)
    (w w1 w2 w3 : World) (duration : Float64)
    (hvalid : req.StreamID ≠ "" ∧ req.StartTime ≠ "" ∧ req.EndTime ≠ "")
    (h1 : downloadFromGCS env cfg.rawBucket (rawFile req) (localRawPath req) w
      = (Except.ok (), w1))
    (h2 : extractClip env (localRawPath req) (localClipPath env.newUUID) req.StartTime
      req.EndTime w1 = (Except.ok duration, w2))
    (h3 : uploadToGCS env cfg.clipsBucket (clipFileName env.newUUID)
      (localClipPath env.newUUID) w2 = (Except.ok (), w3)) :
    createClipHandler env cfg (some req) w
      = (writeJSON (encodeClipResponse (response env cfg duration)),
          osRemove (localRawPath req) (osRemove (localClipPath env.newUUID)
            (firestoreSet env env.newUUID (metadata env cfg req duration) w3))) := by
  simp only [createClipHandler, createClipHandler_valid_cond req hvalid, h1, h2, h3]
  simp

theorem stepsRun_append (l₁ l₂ : List Call) :
    stepsRun (l₁ ++ l₂) = stepsRun l₁ ++ stepsRun l₂ := by
  simp [stepsRun]

theorem recordsWritten_append (l₁ l₂ : List Call) :
    recordsWritten (l₁ ++ l₂) = recordsWritten l₁ ++ recordsWritten l₂ := by
  simp [recordsWritten]

theorem uploads_append (l₁ l₂ : List Call) :
    uploads (l₁ ++ l₂) = uploads l₁ ++ uploads l₂ := by
  simp [uploads]

theorem newCalls_of_log (w w' : World) (l : List Call) (h : w'.log = w.log ++ l) :
    newCalls w w' = l := by
  simp [newCalls, h]

/-- The calls of `downloadFromGCS`: one fetch step, no upload, no record; Firestore is
untouched. -/
theorem downloadFromGCS_effects (env : Env) (bucket object destPath : String) (w : World) :
    ∃ l, (downloadFromGCS env bucket object destPath w).2.log = w.log ++ l ∧
      stepsRun l = [Step.fetch] ∧ recordsWritten l = [] ∧ uploads l = [] ∧
      (downloadFromGCS env bucket object destPath w).2.clips = w.clips := by
  unfold downloadFromGCS
  cases env.newReader bucket object with
  | error e => exact ⟨[Call.gcsNewReader bucket object], by simp [World.call], rfl, rfl, rfl, rfl⟩
  | ok _ =>
    cases env.create destPath with
    | error e =>
      exact ⟨[Call.gcsNewReader bucket object, Call.osCreate destPath],
        by simp [World.call], rfl, rfl, rfl, rfl⟩
    | ok _ =>
      cases env.readFrom bucket object with
      | error e =>
        exact ⟨[Call.gcsNewReader bucket object, Call.osCreate destPath,
          Call.gcsRead bucket object destPath], by simp [World.call, World.addFile],
          rfl, rfl, rfl, rfl⟩
      | ok _ =>
        exact ⟨[Call.gcsNewReader bucket object, Call.osCreate destPath,
          Call.gcsRead bucket object destPath], by simp [World.call, World.addFile],
          rfl, rfl, rfl, rfl⟩

/-- The calls of `extractClip`: one extract step, no upload, no record; Firestore is
untouched. -/
theorem extractClip_effects (env : Env) (inputPath outputPath startTime endTime : String)
    (w : World) :
    ∃ l, (extractClip env inputPath outputPath startTime endTime w).2.log = w.log ++ l ∧
      stepsRun l = [Step.extract] ∧ recordsWritten l = [] ∧ uploads l = [] ∧
      (extractClip env inputPath outputPath startTime endTime w).2.clips = w.clips := by
  unfold extractClip
  dsimp only
  split
  · refine ⟨[Call.exec "ffmpeg" (ffmpegArgs inputPath outputPath startTime endTime)],
      ?_, rfl, rfl, rfl, ?_⟩
    · split <;> simp [World.call, World.addFile]
    · split <;> simp [World.call, World.addFile]
  · split
    · exact ⟨[Call.exec "ffmpeg" (ffmpegArgs inputPath outputPath startTime endTime),
        Call.exec "ffprobe" (ffprobeArgs outputPath)], by simp [World.call, World.addFile],
        rfl, rfl, rfl, rfl⟩
    · split
      · exact ⟨[Call.exec "ffmpeg" (ffmpegArgs inputPath outputPath startTime endTime),
          Call.exec "ffprobe" (ffprobeArgs outputPath)], by simp [World.call, World.addFile],
          rfl, rfl, rfl, rfl⟩
      · exact ⟨[Call.exec "ffmpeg" (ffmpegArgs inputPath outputPath startTime endTime),
          Call.exec "ffprobe" (ffprobeArgs outputPath)], by simp [World.call, World.addFile],
          rfl, rfl, rfl, rfl⟩

/-- The calls of `uploadToGCS`: one publish step, no record; Firestore is untouched; when
it returns no error the object it wrote is the one it was asked to write. -/
theorem uploadToGCS_effects (env : Env) (bucket object srcPath : String) (w : World) :
    ∃ l, (uploadToGCS env bucket object srcPath w).2.log = w.log ++ l ∧
      stepsRun l = [Step.publish] ∧ recordsWritten l = [] ∧
      ((uploadToGCS env bucket object srcPath w).1 = Except.ok () →
        uploads l = [(bucket, object, srcPath)]) ∧
      (uploadToGCS env bucket object srcPath w).2.clips = w.clips := by
  unfold uploadToGCS
  dsimp only
  cases (if srcPath ∈ w.files then env.openFile srcPath
      else Except.error ("open " ++ srcPath ++ ": no such file or directory")) with
  | error e =>
    exact ⟨[Call.osOpen srcPath], by simp [World.call], rfl, rfl, by simp, rfl⟩
  | ok _ =>
    cases env.writeFrom bucket object with
    | error e =>
      exact ⟨[Call.osOpen srcPath, Call.gcsWrite bucket object srcPath],
        by simp [World.call], rfl, rfl, by simp, rfl⟩
    | ok _ =>
      cases env.closeWriter bucket object with
      | error e =>
        exact ⟨[Call.osOpen srcPath, Call.gcsWrite bucket object srcPath,
          Call.gcsClose bucket object], by simp [World.call], rfl, rfl, by simp, rfl⟩
      | ok _ =>
        exact ⟨[Call.osOpen srcPath, Call.gcsWrite bucket object srcPath,
          Call.gcsClose bucket object], by simp [World.call], rfl, rfl,
          fun _ => rfl, rfl⟩

theorem firestoreSet_log (env : Env) (key : String) (data : ClipMetadata) (w : World) :
    (firestoreSet env key data w).log = w.log ++ [Call.firestoreSet "clips" key data] := by
  unfold firestoreSet
  cases env.setDoc key data <;> simp [World.call]

theorem osRemove_log (path : String) (w : World) :
    (osRemove path w).log = w.log ++ [Call.osRemove path] := by
  simp [osRemove, World.call]

theorem osRemove_clips (path : String) (w : World) :
    (osRemove path w).clips = w.clips := by
  simp [osRemove, World.call]

/-! ## The four ways `createClipHandler` ends on a valid request -/

theorem summary_fetch_error (env : Env) (cfg : Config) (req : ClipRequest)
    (w w1 : World) (err : String)
    (hvalid : req.StreamID ≠ "" ∧ req.StartTime ≠ "" ∧ req.EndTime ≠ "")
    (h1 : downloadFromGCS env cfg.rawBucket (rawFile req) (localRawPath req) w
      = (Except.error err, w1)) :
    summarize w (createClipHandler env cfg (some req) w)
        = { status := 500, steps := [Step.fetch], records := [], uploaded := [] } ∧
      (createClipHandler env cfg (some req) w).2.clips = w.clips := by
  obtain ⟨l1, hl1, hs1, hr1, hu1, hc1⟩ :=
    downloadFromGCS_effects env cfg.rawBucket (rawFile req) (localRawPath req) w
  rw [h1] at hl1 hc1
  have hres := createClipHandler_fetch_error env cfg req w w1 err hvalid h1
  have hlog : (createClipHandler env cfg (some req) w).2.log = w.log ++ l1 := by
    rw [hres]; exact hl1
  refine ⟨?_, by rw [hres]; exact hc1⟩
  simp only [summarize, newCalls_of_log _ _ _ hlog, hs1, hr1, hu1]
  rw [hres]
  rfl

theorem summary_extract_error (env : Env) (cfg : Config) (req : ClipRequest)
    (w w1 w2 : World) (err : String)
    (hvalid : req.StreamID ≠ "" ∧ req.StartTime ≠ "" ∧ req.EndTime ≠ "")
    (h1 : downloadFromGCS env cfg.rawBucket (rawFile req) (localRawPath req) w
      = (Except.ok (), w1))
    (h2 : extractClip env (localRawPath req) (localClipPath env.newUUID) req.StartTime
      req.EndTime w1 = (Except.error err, w2)) :
    summarize w (createClipHandler env cfg (some req) w)
        = { status := 500, steps := [Step.fetch, Step.extract], records := [],
            uploaded := [] } ∧
      (createClipHandler env cfg (some req) w).2.clips = w.clips := by
  obtain ⟨l1, hl1, hs1, hr1, hu1, hc1⟩ :=
    downloadFromGCS_effects env cfg.rawBucket (rawFile req) (localRawPath req) w
  rw [h1] at hl1 hc1
  obtain ⟨l2, hl2, hs2, hr2, hu2, hc2⟩ :=
    extractClip_effects env (localRawPath req) (localClipPath env.newUUID) req.StartTime
      req.EndTime w1
  rw [h2] at hl2 hc2
  have hres := createClipHandler_extract_error env cfg req w w1 w2 err hvalid h1 h2
  have hlog : (createClipHandler env cfg (some req) w).2.log
      = w.log ++ (l1 ++ (l2 ++ [Call.osRemove (localRawPath req)])) := by
    rw [hres]
    simp only [osRemove_log]
    rw [hl2, hl1]
    simp only [List.append_assoc]
  refine ⟨?_, ?_⟩
  · simp only [summarize, newCalls_of_log _ _ _ hlog, stepsRun_append, recordsWritten_append,
      uploads_append, hs1, hr1, hu1, hs2, hr2, hu2]
    rw [hres]
    rfl
  · rw [hres, osRemove_clips]
    exact hc2.trans hc1

theorem summary_upload_error (env : Env) (cfg : Config) (req : ClipRequest)
    (w w1 w2 w3 : World) (duration : Float64) (err : String)
    (hvalid : req.StreamID ≠ "" ∧ req.StartTime ≠ "" ∧ req.EndTime ≠ "")
    (h1 : downloadFromGCS env cfg.rawBucket (rawFile req) (localRawPath req) w
      = (Except.ok (), w1))
    (h2 : extractClip env (localRawPath req) (localClipPath env.newUUID) req.StartTime
      req.EndTime w1 = (Except.ok duration, w2))
    (h3 : uploadToGCS env cfg.clipsBucket (clipFileName env.newUUID)
      (localClipPath env.newUUID) w2 = (Except.error err, w3)) :
    (summarize w (createClipHandler env cfg (some req) w)).status = 500 ∧
      (summarize w (createClipHandler env cfg (some req) w)).steps
        = [Step.fetch, Step.extract, Step.publish] ∧
      (summarize w (createClipHandler env cfg (some req) w)).records = [] ∧
      (createClipHandler env cfg (some req) w).2.clips = w.clips := by
  obtain ⟨l1, hl1, hs1, hr1, hu1, hc1⟩ :=
    downloadFromGCS_effects env cfg.rawBucket (rawFile req) (localRawPath req) w
  rw [h1] at hl1 hc1
  obtain ⟨l2, hl2, hs2, hr2, hu2, hc2⟩ :=
    extractClip_effects env (localRawPath req) (localClipPath env.newUUID) req.StartTime
      req.EndTime w1
  rw [h2] at hl2 hc2
  obtain ⟨l3, hl3, hs3, hr3, -, hc3⟩ :=
    uploadToGCS_effects env cfg.clipsBucket (clipFileName env.newUUID)
      (localClipPath env.newUUID) w2
  rw [h3] at hl3 hc3
  have hres := createClipHandler_upload_error env cfg req w w1 w2 w3 duration err hvalid
    h1 h2 h3
  have hlog : (createClipHandler env cfg (some req) w).2.log
      = w.log ++ (l1 ++ (l2 ++ (l3 ++ [Call.osRemove (localClipPath env.newUUID),
          Call.osRemove (localRawPath req)]))) := by
    rw [hres]
    simp only [osRemove_log]
    rw [hl3, hl2, hl1]
    simp only [List.append_assoc, List.singleton_append]
  refine ⟨?_, ?_, ?_, ?_⟩
  · simp only [summarize]
    rw [hres]
    rfl
  · simp only [summarize, newCalls_of_log _ _ _ hlog, stepsRun_append, hs1, hs2, hs3]
    rfl
  · simp only [summarize, newCalls_of_log _ _ _ hlog, recordsWritten_append, hr1, hr2, hr3]
    rfl
  · rw [hres, osRemove_clips, osRemove_clips]
    exact hc3.trans (hc2.trans hc1)

theorem summary_all_ok (env : Env) (cfg : Config) (req : ClipRequest)
    (w w1 w2 w3 : World) (duration : Float64)
    (hvalid : req.StreamID ≠ "" ∧ req.StartTime ≠ "" ∧ req.EndTime ≠ "")
    (h1 : downloadFromGCS env cfg.rawBucket (rawFile req) (localRawPath req) w
      = (Except.ok (), w1))
    (h2 : extractClip env (localRawPath req) (localClipPath env.newUUID) req.StartTime
      req.EndTime w1 = (Except.ok duration, w2))
    (h3 : uploadToGCS env cfg.clipsBucket (clipFileName env.newUUID)
      (localClipPath env.newUUID) w2 = (Except.ok (), w3)) :
    (createClipHandler env cfg (some req) w).1
        = writeJSON (encodeClipResponse (response env cfg duration)) ∧
      summarize w (createClipHandler env cfg (some req) w)
        = { status := 200
            steps := [Step.fetch, Step.extract, Step.publish, Step.record]
            records := [(env.newUUID, metadata env cfg req duration)]
            uploaded := [(cfg.clipsBucket, clipFileName env.newUUID,
              localClipPath env.newUUID)] } := by
  obtain ⟨l1, hl1, hs1, hr1, hu1, hc1⟩ :=
    downloadFromGCS_effects env cfg.rawBucket (rawFile req) (localRawPath req) w
  rw [h1] at hl1 hc1
  obtain ⟨l2, hl2, hs2, hr2, hu2, hc2⟩ :=
    extractClip_effects env (localRawPath req) (localClipPath env.newUUID) req.StartTime
      req.EndTime w1
  rw [h2] at hl2 hc2
  obtain ⟨l3, hl3, hs3, hr3, hu3, hc3⟩ :=
    uploadToGCS_effects env cfg.clipsBucket (clipFileName env.newUUID)
      (localClipPath env.newUUID) w2
  rw [h3] at hl3 hc3 hu3
  have hu3 := hu3 rfl
  have hres := createClipHandler_all_ok env cfg req w w1 w2 w3 duration hvalid h1 h2 h3
  have hlog : (createClipHandler env cfg (some req) w).2.log
      = w.log ++ (l1 ++ (l2 ++ (l3 ++ [Call.firestoreSet "clips" env.newUUID
          (metadata env cfg req duration), Call.osRemove (localClipPath env.newUUID),
          Call.osRemove (localRawPath req)]))) := by
    rw [hres]
    simp only [osRemove_log, firestoreSet_log]
    rw [hl3, hl2, hl1]
    simp only [List.append_assoc, List.singleton_append, List.cons_append, List.nil_append]
  refine ⟨by rw [hres], ?_⟩
  simp only [summarize, newCalls_of_log _ _ _ hlog, stepsRun_append, recordsWritten_append,
    uploads_append, hs1, hr1, hu1, hs2, hr2, hu2, hs3, hr3, hu3]
  rw [hres]
  rfl

/-! ## `filepath.Join("/tmp", name)` on a name without a separator -/

theorem takeWhile_no_sep (x : List Char) (hx : ∀ c ∈ x, c ≠ '/') :
    x.takeWhile (fun c => !filepath.isPathSeparator c) = x := by
  rw [List.takeWhile_eq_self_iff]
  intro c hc
  simp [filepath.isPathSeparator, hx c hc]

theorem dropWhile_no_sep (x : List Char) (hx : ∀ c ∈ x, c ≠ '/') :
    x.dropWhile (fun c => !filepath.isPathSeparator c) = [] := by
  rw [List.dropWhile_eq_nil_iff]
  intro c hc
  simp [filepath.isPathSeparator, hx c hc]

/-- One round of the loop of `Clean` on a last element that holds no separator and is at
least three bytes long: a slash and the element are appended. -/
theorem cleanLoop_last_elem (fuel : Nat) (x out : List Char) (dotdot : Nat)
    (hx : ∀ c ∈ x, c ≠ '/') (hlen : 3 ≤ x.length) (hout : out.length ≠ 1) :
    filepath.cleanLoop true (fuel + 2) x out dotdot = out ++ '/' :: x := by
  match x, hlen, hx with
  | c :: d :: e :: tl, _, hx =>
    have hc : c ≠ '/' := hx c (by simp)
    have hd : d ≠ '/' := hx d (by simp)
    have he : e ≠ '/' := hx e (by simp)
    have htw := takeWhile_no_sep (c :: d :: e :: tl) hx
    have hdw := dropWhile_no_sep (c :: d :: e :: tl) hx
    rw [filepath.cleanLoop]
    simp only [htw, hdw]
    simp [filepath.isPathSeparator, filepath.atElemEnd, hc, hd, he, hout, filepath.cleanLoop]

/-- The characters of `filepath.Join("/tmp", name)` for such a name. -/
theorem cleanChars_tmp (x : List Char) (hx : ∀ c ∈ x, c ≠ '/') (hlen : 3 ≤ x.length) :
    filepath.cleanChars ('/' :: 't' :: 'm' :: 'p' :: '/' :: x)
      = '/' :: 't' :: 'm' :: 'p' :: '/' :: x := by
  have h : filepath.cleanLoop true (x.length + 1 + 1 + 1) x ['/', 't', 'm', 'p'] 1
      = ['/', 't', 'm', 'p'] ++ '/' :: x :=
    cleanLoop_last_elem (x.length + 1) x ['/', 't', 'm', 'p'] 1 hx hlen (by decide)
  simp [filepath.cleanChars, filepath.cleanLoop, filepath.isPathSeparator,
    filepath.atElemEnd, h]

/-- Go `filepath.Join("/tmp", name)` is `"/tmp/" + name` when `name` holds no separator and is
at least three bytes long. -/
theorem Join_tmp (name : String) (hx : ∀ c ∈ name.data, c ≠ '/')
    (hlen : 3 ≤ name.data.length) :
    filepath.Join ["/tmp", name] = "/tmp/" ++ name := by
  have hne : ("/tmp" == "") = false := by decide
  have hj : String.intercalate "/" ["/tmp", name] = "/tmp/" ++ name := by
    apply String.ext
    simp [String.intercalate, String.intercalate.go, String.data_append]
  simp only [filepath.Join, List.dropWhile, hne, hj, filepath.Clean]
  apply String.ext
  simp only [String.data_append]
  exact cleanChars_tmp name.data hx hlen

/-- The local source path of a request whose stream identifier holds no separator. -/
theorem localRawPath_no_sep (req : ClipRequest) (h : ∀ c ∈ req.StreamID.data, c ≠ '/') :
    localRawPath req = "/tmp/" ++ (req.StreamID ++ ".mp4") := by
  apply Join_tmp
  · intro c hc
    simp only [rawFile, String.data_append, List.mem_append] at hc
    rcases hc with hc | hc
    · exact h c hc
    · intro hcs
      subst hcs
      revert hc
      decide
  · simp only [rawFile, String.data_append, List.length_append]
    have h4 : (".mp4" : String).data.length = 4 := by decide
    rw [h4]
    omega

/-! ## Inversion: a 200 response means every step succeeded -/

theorem createClipHandler_status_200 (env : Env) (cfg : Config) (req : ClipRequest)
    (w : World) (h : (createClipHandler env cfg (some req) w).1.status = 200) :
    (req.StreamID ≠ "" ∧ req.StartTime ≠ "" ∧ req.EndTime ≠ "") ∧
    ∃ w1 w2 w3 duration,
      downloadFromGCS env cfg.rawBucket (rawFile req) (localRawPath req) w
        = (Except.ok (), w1) ∧
      extractClip env (localRawPath req) (localClipPath env.newUUID) req.StartTime
        req.EndTime w1 = (Except.ok duration, w2) ∧
      uploadToGCS env cfg.clipsBucket (clipFileName env.newUUID)
        (localClipPath env.newUUID) w2 = (Except.ok (), w3) := by
  by_cases hv : req.StreamID ≠ "" ∧ req.StartTime ≠ "" ∧ req.EndTime ≠ ""
  · refine ⟨hv, ?_⟩
    rcases h1 : downloadFromGCS env cfg.rawBucket (rawFile req) (localRawPath req) w
      with ⟨e | u, w1⟩
    · rw [createClipHandler_fetch_error env cfg req w w1 e hv h1] at h
      simp [httpError] at h
    · rcases h2 : extractClip env (localRawPath req) (localClipPath env.newUUID)
        req.StartTime req.EndTime w1 with ⟨e | d, w2⟩
      · rw [createClipHandler_extract_error env cfg req w w1 w2 e hv h1 h2] at h
        simp [httpError] at h
      · rcases h3 : uploadToGCS env cfg.clipsBucket (clipFileName env.newUUID)
          (localClipPath env.newUUID) w2 with ⟨e | u, w3⟩
        · rw [createClipHandler_upload_error env cfg req w w1 w2 w3 d e hv h1 h2 h3] at h
          simp [httpError] at h
        · refine ⟨w1, w2, w3, d, ?_, h2, h3⟩
          first | exact h1 | rfl
  · exfalso
    have hc : (req.StreamID == "" || req.StartTime == "" || req.EndTime == "") = true := by
      by_contra hcon
      apply hv
      simp only [Bool.not_eq_true, Bool.or_eq_false_iff, beq_eq_false_iff_ne] at hcon
      exact ⟨hcon.1.1, hcon.1.2, hcon.2⟩
    simp [createClipHandler, hc, httpError] at h

theorem extractClip_ok (env : Env) (inputPath outputPath startTime endTime : String)
    (w w2 : World) (duration : Float64)
    (h : extractClip env inputPath outputPath startTime endTime w = (Except.ok duration, w2)) :
    ∃ out, env.ffprobe (ffprobeArgs outputPath) = Except.ok out ∧
      env.sscanf out = Except.ok duration := by
  unfold extractClip at h
  dsimp only at h
  split at h
  · simp at h
  · split at h
    · simp at h
    · rename_i out hout
      split at h
      · simp at h
      · rename_i d hd
        refine ⟨out, hout, ?_⟩
        simp only [Prod.mk.injEq, Except.ok.injEq] at h
        rw [hd, h.1]

/-! ## Properties of `createClipHandler` -/

/-- C1 (the code breaks it): on two exit paths of `createClipHandler` a scratch file created
during the request is still on disk when the handler returns.  When `downloadFromGCS` has
created `/tmp/abc123.mp4` and the copy fails, the handler answers 500 and the file stays;
when `extractClip` has produced `/tmp/0b1c2d3e.mp3` and the duration probe fails, the
handler answers 500, removes the source copy and leaves the clip.  On the paths that pass
both `defer` statements (upload failure, success) no scratch file is left. -/
theorem createClipHandler_leaves_scratch_file :
    emptyWorld.files = [] ∧
    (createClipHandler copyFailEnv sampleConfig (some sampleRequest) emptyWorld).1.status
      = 500 ∧
    (createClipHandler copyFailEnv sampleConfig (some sampleRequest) emptyWorld).2.files
      = ["/tmp/abc123.mp4"] ∧
    (createClipHandler probeFailEnv sampleConfig (some sampleRequest) emptyWorld).1.status
      = 500 ∧
    (createClipHandler probeFailEnv sampleConfig (some sampleRequest) emptyWorld).2.files
      = ["/tmp/0b1c2d3e.mp3"] ∧
    (createClipHandler uploadFailEnv sampleConfig (some sampleRequest) emptyWorld).1.status
      = 500 ∧
    (createClipHandler uploadFailEnv sampleConfig (some sampleRequest) emptyWorld).2.files
      = [] ∧
    (createClipHandler sampleEnv sampleConfig (some sampleRequest) emptyWorld).1.status
      = 200 ∧
    (createClipHandler sampleEnv sampleConfig (some sampleRequest) emptyWorld).2.files
      = [] := by
  decide

/-- C2: a decoded request whose `stream_id`, `start_time` or `end_time` is empty is answered
with status 400 and the world is left as it was: no call to storage, to a process or to
Firestore is made, and no file or document changes. -/
theorem createClipHandler_missing_field (env : Env) (cfg : Config) (req : ClipRequest)
    (w : World) (h : req.StreamID = "" ∨ req.StartTime = "" ∨ req.EndTime = "") :
    (createClipHandler env cfg (some req) w).1.status = 400 ∧
    (createClipHandler env cfg (some req) w).2 = w ∧
    newCalls w (createClipHandler env cfg (some req) w).2 = [] := by
  have hc : (req.StreamID == "" || req.StartTime == "" || req.EndTime == "") = true := by
    rcases h with h | h | h <;> simp [h]
  simp [createClipHandler, hc, httpError, newCalls]

theorem createClipHandler_missing_field_witness :
    (missingStartRequest.StreamID = "" ∨ missingStartRequest.StartTime = "" ∨
      missingStartRequest.EndTime = "") ∧
    (createClipHandler sampleEnv sampleConfig (some missingStartRequest) emptyWorld).1.status
      = 400 ∧
    (createClipHandler sampleEnv sampleConfig (some missingStartRequest) emptyWorld).2
      = emptyWorld ∧
    newCalls emptyWorld
      (createClipHandler sampleEnv sampleConfig (some missingStartRequest) emptyWorld).2
        = [] :=
  ⟨Or.inr (Or.inl rfl),
    createClipHandler_missing_field sampleEnv sampleConfig missingStartRequest emptyWorld
      (Or.inr (Or.inl rfl))⟩

/-- C3: on a valid request the steps run are a prefix of fetch, extract, publish, record,
each at most once; and when the fetch, the extraction or the upload returns an error the
handler answers 500, runs no later step, hands no Clip Record to Firestore and leaves the
collection as it was. -/
theorem createClipHandler_failure_aborts (env : Env) (cfg : Config) (req : ClipRequest)
    (w : World) (hvalid : req.StreamID ≠ "" ∧ req.StartTime ≠ "" ∧ req.EndTime ≠ "") :
    (summarize w (createClipHandler env cfg (some req) w)).steps
      <+: [Step.fetch, Step.extract, Step.publish, Step.record] ∧
    (summarize w (createClipHandler env cfg (some req) w)).steps.Nodup ∧
    (∀ err w1,
      downloadFromGCS env cfg.rawBucket (rawFile req) (localRawPath req) w
        = (Except.error err, w1) →
      (summarize w (createClipHandler env cfg (some req) w)).status = 500 ∧
      (summarize w (createClipHandler env cfg (some req) w)).steps = [Step.fetch] ∧
      (summarize w (createClipHandler env cfg (some req) w)).records = [] ∧
      (createClipHandler env cfg (some req) w).2.clips = w.clips) ∧
    (∀ err w1 w2,
      downloadFromGCS env cfg.rawBucket (rawFile req) (localRawPath req) w
        = (Except.ok (), w1) →
      extractClip env (localRawPath req) (localClipPath env.newUUID) req.StartTime
        req.EndTime w1 = (Except.error err, w2) →
      (summarize w (createClipHandler env cfg (some req) w)).status = 500 ∧
      (summarize w (createClipHandler env cfg (some req) w)).steps
        = [Step.fetch, Step.extract] ∧
      (summarize w (createClipHandler env cfg (some req) w)).records = [] ∧
      (createClipHandler env cfg (some req) w).2.clips = w.clips) ∧
    (∀ err w1 w2 w3 duration,
      downloadFromGCS env cfg.rawBucket (rawFile req) (localRawPath req) w
        = (Except.ok (), w1) →
      extractClip env (localRawPath req) (localClipPath env.newUUID) req.StartTime
        req.EndTime w1 = (Except.ok duration, w2) →
      uploadToGCS env cfg.clipsBucket (clipFileName env.newUUID)
        (localClipPath env.newUUID) w2 = (Except.error err, w3) →
      (summarize w (createClipHandler env cfg (some req) w)).status = 500 ∧
      (summarize w (createClipHandler env cfg (some req) w)).steps
        = [Step.fetch, Step.extract, Step.publish] ∧
      (summarize w (createClipHandler env cfg (some req) w)).records = [] ∧
      (createClipHandler env cfg (some req) w).2.clips = w.clips) := by
  have hsteps : (summarize w (createClipHandler env cfg (some req) w)).steps = [Step.fetch] ∨
      (summarize w (createClipHandler env cfg (some req) w)).steps
        = [Step.fetch, Step.extract] ∨
      (summarize w (createClipHandler env cfg (some req) w)).steps
        = [Step.fetch, Step.extract, Step.publish] ∨
      (summarize w (createClipHandler env cfg (some req) w)).steps
        = [Step.fetch, Step.extract, Step.publish, Step.record] := by
    rcases h1 : downloadFromGCS env cfg.rawBucket (rawFile req) (localRawPath req) w
      with ⟨e | u, w1⟩
    · left
      rw [(summary_fetch_error env cfg req w w1 e hvalid h1).1]
    · rcases h2 : extractClip env (localRawPath req) (localClipPath env.newUUID)
        req.StartTime req.EndTime w1 with ⟨e | d, w2⟩
      · right; left
        rw [(summary_extract_error env cfg req w w1 w2 e hvalid h1 h2).1]
      · rcases h3 : uploadToGCS env cfg.clipsBucket (clipFileName env.newUUID)
          (localClipPath env.newUUID) w2 with ⟨e | u, w3⟩
        · right; right; left
          exact (summary_upload_error env cfg req w w1 w2 w3 d e hvalid h1 h2 h3).2.1
        · right; right; right
          rw [(summary_all_ok env cfg req w w1 w2 w3 d hvalid h1 h2 h3).2]
  refine ⟨?_, ?_, ?_, ?_, ?_⟩
  · rcases hsteps with h | h | h | h <;> rw [h] <;> decide
  · rcases hsteps with h | h | h | h <;> rw [h] <;> decide
  · intro err w1 h1
    have hs := summary_fetch_error env cfg req w w1 err hvalid h1
    rw [hs.1]
    exact ⟨rfl, rfl, rfl, hs.2⟩
  · intro err w1 w2 h1 h2
    have hs := summary_extract_error env cfg req w w1 w2 err hvalid h1 h2
    rw [hs.1]
    exact ⟨rfl, rfl, rfl, hs.2⟩
  · intro err w1 w2 w3 duration h1 h2 h3
    exact summary_upload_error env cfg req w w1 w2 w3 duration err hvalid h1 h2 h3

theorem createClipHandler_failure_aborts_witness :
    (sampleRequest.StreamID ≠ "" ∧ sampleRequest.StartTime ≠ "" ∧
      sampleRequest.EndTime ≠ "") ∧
    (summarize emptyWorld
      (createClipHandler copyFailEnv sampleConfig (some sampleRequest) emptyWorld)).status
        = 500 ∧
    (summarize emptyWorld
      (createClipHandler copyFailEnv sampleConfig (some sampleRequest) emptyWorld)).steps
        = [Step.fetch] ∧
    (summarize emptyWorld
      (createClipHandler copyFailEnv sampleConfig (some sampleRequest) emptyWorld)).records
        = [] ∧
    (createClipHandler copyFailEnv sampleConfig (some sampleRequest) emptyWorld).2.clips
      = emptyWorld.clips :=
  ⟨by decide,
    (createClipHandler_failure_aborts copyFailEnv sampleConfig sampleRequest emptyWorld
      (by decide)).2.2.1 _ _ rfl⟩

/-- C4: on a valid request whose fetch, extraction and upload succeed, the response does
not depend on the metadata write: replacing the outcome of `Set` by any other changes
neither the status nor the body.  The status is 200 and the body is what the encoder
writes for the response assembled from the generated identifier, the address and the
measured duration; for a finite duration that is the `ClipResponse` itself. -/
theorem createClipHandler_metadata_write_ignored (env : Env) (cfg : Config)
    (req : ClipRequest) (w w1 w2 w3 : World) (duration : Float64)
    (setDoc' : String → ClipMetadata → Except String Unit)
    (hvalid : req.StreamID ≠ "" ∧ req.StartTime ≠ "" ∧ req.EndTime ≠ "")
    (h1 : downloadFromGCS env cfg.rawBucket (rawFile req) (localRawPath req) w
      = (Except.ok (), w1))
    (h2 : extractClip env (localRawPath req) (localClipPath env.newUUID) req.StartTime
      req.EndTime w1 = (Except.ok duration, w2))
    (h3 : uploadToGCS env cfg.clipsBucket (clipFileName env.newUUID)
      (localClipPath env.newUUID) w2 = (Except.ok (), w3)) :
    (createClipHandler { env with setDoc := setDoc' } cfg (some req) w).1
      = (createClipHandler env cfg (some req) w).1 ∧
    (createClipHandler env cfg (some req) w).1.status = 200 ∧
    (createClipHandler env cfg (some req) w).1
      = writeJSON (encodeClipResponse
          { ClipID := env.newUUID, URL := clipURL cfg env.newUUID, Duration := duration,
            Message := "Clip created successfully" }) ∧
    (duration.isFinite = true →
      (createClipHandler env cfg (some req) w).1
        = { status := 200, contentType := "application/json",
            body := Body.json (JSON.clipResponse
              { ClipID := env.newUUID, URL := clipURL cfg env.newUUID, Duration := duration,
                Message := "Clip created successfully" }) }) := by
  have ha := createClipHandler_all_ok env cfg req w w1 w2 w3 duration hvalid h1 h2 h3
  have hb := createClipHandler_all_ok { env with setDoc := setDoc' } cfg req w w1 w2 w3
    duration hvalid h1 h2 h3
  rw [ha, hb]
  refine ⟨rfl, rfl, rfl, ?_⟩
  intro hfin
  simp [writeJSON, encodeClipResponse, ClipResponse.encodable, response, hfin]

theorem createClipHandler_metadata_write_ignored_witness :
    (sampleRequest.StreamID ≠ "" ∧ sampleRequest.StartTime ≠ "" ∧
      sampleRequest.EndTime ≠ "") ∧
    sampleEnv.setDoc "0b1c2d3e" (metadata sampleEnv sampleConfig sampleRequest
      { bits := 4624633867356078080 }) = Except.ok () ∧
    setFailEnv.setDoc "0b1c2d3e" (metadata sampleEnv sampleConfig sampleRequest
      { bits := 4624633867356078080 }) = Except.error "rpc error: code = Unavailable" ∧
    (createClipHandler { sampleEnv with setDoc := setFailEnv.setDoc } sampleConfig
        (some sampleRequest) emptyWorld).1
      = (createClipHandler sampleEnv sampleConfig (some sampleRequest) emptyWorld).1 ∧
    (createClipHandler sampleEnv sampleConfig (some sampleRequest) emptyWorld).1
      = { status := 200, contentType := "application/json",
          body := Body.json (JSON.clipResponse
            { ClipID := "0b1c2d3e",
              URL := "https://storage.googleapis.com/clips/0b1c2d3e.mp3",
              Duration := { bits := 4624633867356078080 },
              Message := "Clip created successfully" }) } :=
  ⟨by decide, rfl, rfl,
    (createClipHandler_metadata_write_ignored sampleEnv sampleConfig sampleRequest
      emptyWorld _ _ _ { bits := 4624633867356078080 } setFailEnv.setDoc (by decide)
      rfl rfl rfl).1,
    (createClipHandler_metadata_write_ignored sampleEnv sampleConfig sampleRequest
      emptyWorld _ _ _ { bits := 4624633867356078080 } setFailEnv.setDoc (by decide)
      rfl rfl rfl).2.2.2 (by decide)⟩

/-- C5 as stated fails: a creation can succeed (every step runs, the record is handed to
Firestore, the status is 200) while the response returns no duration.  When the probe
output reads as a NaN, `extractClip` returns it, the record carries it, and the encoder
refuses it: the handler discards that error and the body stays empty. -/
theorem createClipHandler_nan_duration_unreported :
    (createClipHandler nanEnv sampleConfig (some sampleRequest) emptyWorld).1.status = 200 ∧
    (summarize emptyWorld
        (createClipHandler nanEnv sampleConfig (some sampleRequest) emptyWorld)).steps
      = [Step.fetch, Step.extract, Step.publish, Step.record] ∧
    (summarize emptyWorld
        (createClipHandler nanEnv sampleConfig (some sampleRequest) emptyWorld)).records.map
          (fun r => r.2.Duration) = [{ bits := 9221120237041090560 }] ∧
    (createClipHandler nanEnv sampleConfig (some sampleRequest) emptyWorld).1.body
      = Body.empty ∧
    ¬ ∃ r, (createClipHandler nanEnv sampleConfig (some sampleRequest) emptyWorld).1.body
      = Body.json (JSON.clipResponse r) := by
  refine ⟨by decide, by decide, by decide, by decide, ?_⟩
  rintro ⟨r, hr⟩
  have hb : (createClipHandler nanEnv sampleConfig (some sampleRequest) emptyWorld).1.body
      = Body.empty := by decide
  rw [hb] at hr
  cases hr

/-- C5, amended: whenever a creation succeeds, the duration in the Clip Record handed to
Firestore is the value `extractClip` returned, which is what `Sscanf` read from the output
of the probe of the produced file, and when that value is a finite number the duration in
the response is the same value.  The request's `start_time` and `end_time` do not enter
it: a second successful request, with any other time range, gets the same duration from
the same probe result. -/
theorem createClipHandler_duration_measured (env : Env) (cfg : Config)
    (req req' : ClipRequest) (w w' : World)
    (h : (createClipHandler env cfg (some req) w).1.status = 200)
    (h' : (createClipHandler env cfg (some req') w').1.status = 200) :
    ∃ w1 w2 out duration,
      extractClip env (localRawPath req) (localClipPath env.newUUID) req.StartTime
        req.EndTime w1 = (Except.ok duration, w2) ∧
      env.ffprobe (ffprobeArgs (localClipPath env.newUUID)) = Except.ok out ∧
      env.sscanf out = Except.ok duration ∧
      (summarize w (createClipHandler env cfg (some req) w)).records
        = [(env.newUUID,
            { ClipID := env.newUUID, StreamID := req.StreamID, Title := req.Title,
              StartTime := req.StartTime, EndTime := req.EndTime, Duration := duration,
              URL := clipURL cfg env.newUUID, CreatedAt := env.now })] ∧
      (duration.isFinite = true →
        (createClipHandler env cfg (some req) w).1.body
          = Body.json (JSON.clipResponse
              { ClipID := env.newUUID, URL := clipURL cfg env.newUUID,
                Duration := duration, Message := "Clip created successfully" })) ∧
      (createClipHandler env cfg (some req') w').1.body
        = (createClipHandler env cfg (some req) w).1.body ∧
      (summarize w' (createClipHandler env cfg (some req') w')).records.map
          (fun r => r.2.Duration) = [duration] := by
  obtain ⟨hv, w1, w2, w3, d, h1, h2, h3⟩ := createClipHandler_status_200 env cfg req w h
  obtain ⟨hv', w1', w2', w3', d', h1', h2', h3'⟩ :=
    createClipHandler_status_200 env cfg req' w' h'
  obtain ⟨out, ho, hs⟩ := extractClip_ok env _ _ _ _ _ _ _ h2
  obtain ⟨out', ho', hs'⟩ := extractClip_ok env _ _ _ _ _ _ _ h2'
  have hdd : d' = d := by
    rw [ho] at ho'
    cases ho'
    rw [hs] at hs'
    cases hs'
    rfl
  subst hdd
  have ha := summary_all_ok env cfg req w w1 w2 w3 d' hv h1 h2 h3
  have hb := summary_all_ok env cfg req' w' w1' w2' w3' d' hv' h1' h2' h3'
  refine ⟨w1, w2, out, d', h2, ho, hs, ?_, ?_, ?_, ?_⟩
  · rw [ha.2]; rfl
  · intro hfin
    rw [ha.1]
    simp [writeJSON, encodeClipResponse, ClipResponse.encodable, response, hfin]
  · rw [ha.1, hb.1]
  · rw [hb.2]; rfl

theorem createClipHandler_duration_measured_witness :
    ((createClipHandler sampleEnv sampleConfig (some sampleRequest) emptyWorld).1.status
        = 200 ∧
      (createClipHandler sampleEnv sampleConfig (some otherRangeRequest) emptyWorld).1.status
        = 200) ∧
    ∃ w1 w2 out duration,
      extractClip sampleEnv (localRawPath sampleRequest) (localClipPath sampleEnv.newUUID)
        sampleRequest.StartTime sampleRequest.EndTime w1 = (Except.ok duration, w2) ∧
      sampleEnv.ffprobe (ffprobeArgs (localClipPath sampleEnv.newUUID)) = Except.ok out ∧
      sampleEnv.sscanf out = Except.ok duration ∧
      (summarize emptyWorld
          (createClipHandler sampleEnv sampleConfig (some sampleRequest) emptyWorld)).records
        = [(sampleEnv.newUUID,
            { ClipID := sampleEnv.newUUID, StreamID := sampleRequest.StreamID,
              Title := sampleRequest.Title, StartTime := sampleRequest.StartTime,
              EndTime := sampleRequest.EndTime, Duration := duration,
              URL := clipURL sampleConfig sampleEnv.newUUID, CreatedAt := sampleEnv.now })] ∧
      (duration.isFinite = true →
        (createClipHandler sampleEnv sampleConfig (some sampleRequest) emptyWorld).1.body
          = Body.json (JSON.clipResponse
              { ClipID := sampleEnv.newUUID, URL := clipURL sampleConfig sampleEnv.newUUID,
                Duration := duration, Message := "Clip created successfully" })) ∧
      (createClipHandler sampleEnv sampleConfig (some otherRangeRequest) emptyWorld).1.body
        = (createClipHandler sampleEnv sampleConfig (some sampleRequest) emptyWorld).1.body ∧
      (summarize emptyWorld
          (createClipHandler sampleEnv sampleConfig (some otherRangeRequest)
            emptyWorld)).records.map (fun r => r.2.Duration) = [duration] :=
  ⟨⟨by decide, by decide⟩,
    createClipHandler_duration_measured sampleEnv sampleConfig sampleRequest
      otherRangeRequest emptyWorld emptyWorld (by decide) (by decide)⟩

/-- C6 as stated fails: a creation can succeed, upload `clipID + ".mp3"` and record the
address, and still return no `url` and no `clip_id`: with a NaN duration the encoder
refuses the response and the body stays empty. -/
theorem createClipHandler_nan_duration_no_url :
    (createClipHandler nanEnv sampleConfig (some sampleRequest) emptyWorld).1.status = 200 ∧
    (summarize emptyWorld
        (createClipHandler nanEnv sampleConfig (some sampleRequest) emptyWorld)).uploaded
      = [("clips", "0b1c2d3e.mp3", "/tmp/0b1c2d3e.mp3")] ∧
    (summarize emptyWorld
        (createClipHandler nanEnv sampleConfig (some sampleRequest) emptyWorld)).records.map
          (fun r => (r.1, r.2.URL))
      = [("0b1c2d3e", "https://storage.googleapis.com/clips/0b1c2d3e.mp3")] ∧
    ¬ ∃ r, (createClipHandler nanEnv sampleConfig (some sampleRequest) emptyWorld).1.body
      = Body.json (JSON.clipResponse r) := by
  refine ⟨by decide, by decide, by decide, ?_⟩
  rintro ⟨r, hr⟩
  have hb : (createClipHandler nanEnv sampleConfig (some sampleRequest) emptyWorld).1.body
      = Body.empty := by decide
  rw [hb] at hr
  cases hr

/-- C6, amended: whenever a creation succeeds with generated identifier `clipID` and
destination container `B`, the one object uploaded is `clipID + ".mp3"` in `B`, read from
the local clip file; the Clip Record is stored under the key `clipID`, carries `clipID` as
its `clip_id` and `"https://storage.googleapis.com/" + B + "/" + clipID + ".mp3"` as its
`url`; and when the measured duration is a finite number the response carries the same
`clipID` as `clip_id` and the same `url`. -/
theorem createClipHandler_public_url (env : Env) (cfg : Config) (req : ClipRequest)
    (w : World) (h : (createClipHandler env cfg (some req) w).1.status = 200) :
    ∃ m,
      (summarize w (createClipHandler env cfg (some req) w)).records = [(env.newUUID, m)] ∧
      (summarize w (createClipHandler env cfg (some req) w)).uploaded
        = [(cfg.clipsBucket, env.newUUID ++ ".mp3",
            filepath.Join ["/tmp", env.newUUID ++ ".mp3"])] ∧
      m.ClipID = env.newUUID ∧
      m.URL = "https://storage.googleapis.com/" ++ cfg.clipsBucket ++ "/" ++ env.newUUID
        ++ ".mp3" ∧
      (m.Duration.isFinite = true →
        ∃ r,
          (createClipHandler env cfg (some req) w).1.body
            = Body.json (JSON.clipResponse r) ∧
          r.ClipID = env.newUUID ∧
          r.URL = "https://storage.googleapis.com/" ++ cfg.clipsBucket ++ "/" ++
            env.newUUID ++ ".mp3" ∧
          r.Duration = m.Duration) := by
  obtain ⟨hv, w1, w2, w3, d, h1, h2, h3⟩ := createClipHandler_status_200 env cfg req w h
  have ha := summary_all_ok env cfg req w w1 w2 w3 d hv h1 h2 h3
  refine ⟨metadata env cfg req d, ?_, ?_, rfl, ?_, ?_⟩
  · rw [ha.2]
  · rw [ha.2]; rfl
  · simp only [metadata, clipURL, clipFileName, String.append_assoc]
  · intro hfin
    have hfin' : d.isFinite = true := hfin
    refine ⟨response env cfg d, ?_, rfl, ?_, rfl⟩
    · rw [ha.1]
      simp [writeJSON, encodeClipResponse, ClipResponse.encodable, response, hfin']
    · simp only [response, clipURL, clipFileName, String.append_assoc]

theorem createClipHandler_public_url_witness :
    (createClipHandler sampleEnv sampleConfig (some sampleRequest) emptyWorld).1.status
      = 200 ∧
    ∃ m,
      (summarize emptyWorld
          (createClipHandler sampleEnv sampleConfig (some sampleRequest) emptyWorld)).records
        = [(sampleEnv.newUUID, m)] ∧
      (summarize emptyWorld
          (createClipHandler sampleEnv sampleConfig (some sampleRequest) emptyWorld)).uploaded
        = [(sampleConfig.clipsBucket, sampleEnv.newUUID ++ ".mp3",
            filepath.Join ["/tmp", sampleEnv.newUUID ++ ".mp3"])] ∧
      m.ClipID = sampleEnv.newUUID ∧
      m.URL = "https://storage.googleapis.com/" ++ sampleConfig.clipsBucket ++ "/" ++
        sampleEnv.newUUID ++ ".mp3" ∧
      (m.Duration.isFinite = true →
        ∃ r,
          (createClipHandler sampleEnv sampleConfig (some sampleRequest) emptyWorld).1.body
            = Body.json (JSON.clipResponse r) ∧
          r.ClipID = sampleEnv.newUUID ∧
          r.URL = "https://storage.googleapis.com/" ++ sampleConfig.clipsBucket ++ "/" ++
            sampleEnv.newUUID ++ ".mp3" ∧
          r.Duration = m.Duration) :=
  ⟨by decide,
    createClipHandler_public_url sampleEnv sampleConfig sampleRequest emptyWorld
      (by decide)⟩

/-! ## `getClipHandler` -/

theorem lookup_putDoc (key : String) (doc : Document) (clips : List (String × Document)) :
    (putDoc key doc clips).lookup key = some doc := by
  simp [putDoc, List.lookup]

theorem firestoreSet_clips_ok (env : Env) (key : String) (data : ClipMetadata) (w : World)
    (h : env.setDoc key data = Except.ok ()) :
    (firestoreSet env key data w).clips = putDoc key (env.toDoc data) w.clips := by
  simp [firestoreSet, h, World.call]

theorem firestoreGet_found (env : Env) (key : String) (w : World) (doc : Document)
    (hget : env.getDoc key = Except.ok ()) (h : w.clips.lookup key = some doc) :
    firestoreGet env key w = Except.ok doc := by
  simp [firestoreGet, hget, h]

theorem firestoreGet_absent (env : Env) (key : String) (w : World)
    (h : w.clips.lookup key = none) :
    ∃ err, firestoreGet env key w = Except.error err := by
  unfold firestoreGet
  cases env.getDoc key with
  | error e => exact ⟨e, rfl⟩
  | ok _ => exact ⟨"rpc error: code = NotFound", by simp [h]⟩

/-- C7 as stated fails: a document that is stored and deserializes is not always answered
with 200.  `getClipHandler` answers 404 on every error of `Get`, also one that is not
"not found". -/
theorem getClipHandler_get_error_404 :
    storedWorld.clips.lookup "c1" = some olderDoc ∧
    getFailEnv.dataTo olderDoc
      = some { ClipID := "c1", StreamID := "abc123", Title := "first", StartTime := "10",
               EndTime := "25", Duration := { bits := 4624633867356078080 },
               URL := "https://storage.googleapis.com/clips/c1.mp3",
               CreatedAt := { unixNano := 1000000000000 } } ∧
    getClipHandler getFailEnv "c1" storedWorld
      = { status := 404, contentType := "text/plain; charset=utf-8",
          body := Body.text "Clip not found\n" } := by
  decide

/-- C7, amended: `getClipHandler` answers 404 whenever `Get` returns an error, which it
does when the collection holds no document for the identifier.  When `Get` returns a
document, the handler answers 500 if the document cannot be deserialized and otherwise
200, with the deserialized record as body when that record can be encoded (finite
duration, creation year within 0 to 9999).  After a successful `createClipHandler` whose
`Set` returned no error, the document stored under the generated identifier is the stored
form of the record assembled from the identifier, the request's stream id, title, start
and end time, the measured duration, the address and the creation timestamp; a lookup of
that identifier answers with what `DataTo` reads from this document. -/
theorem getClipHandler_lookup (env : Env) (cfg : Config) (req : ClipRequest)
    (w₀ w : World) (clipID : String) :
    (∀ err, firestoreGet env clipID w = Except.error err →
      getClipHandler env clipID w
        = { status := 404, contentType := "text/plain; charset=utf-8",
            body := Body.text "Clip not found\n" }) ∧
    (w.clips.lookup clipID = none → (getClipHandler env clipID w).status = 404) ∧
    (∀ doc, env.getDoc clipID = Except.ok () → w.clips.lookup clipID = some doc →
      env.dataTo doc = none → (getClipHandler env clipID w).status = 500) ∧
    (∀ doc clip, env.getDoc clipID = Except.ok () → w.clips.lookup clipID = some doc →
      env.dataTo doc = some clip →
      (getClipHandler env clipID w).status = 200 ∧
      (clip.Duration.isFinite = true → clip.CreatedAt.marshalable = true →
        getClipHandler env clipID w
          = { status := 200, contentType := "application/json",
              body := Body.json (JSON.clipMetadata clip) })) ∧
    ((createClipHandler env cfg (some req) w₀).1.status = 200 →
      ∃ duration,
        (summarize w₀ (createClipHandler env cfg (some req) w₀)).records
          = [(env.newUUID,
              { ClipID := env.newUUID, StreamID := req.StreamID, Title := req.Title,
                StartTime := req.StartTime, EndTime := req.EndTime, Duration := duration,
                URL := clipURL cfg env.newUUID, CreatedAt := env.now })] ∧
        (env.setDoc env.newUUID
            { ClipID := env.newUUID, StreamID := req.StreamID, Title := req.Title,
              StartTime := req.StartTime, EndTime := req.EndTime, Duration := duration,
              URL := clipURL cfg env.newUUID, CreatedAt := env.now } = Except.ok () →
          (createClipHandler env cfg (some req) w₀).2.clips.lookup env.newUUID
            = some (env.toDoc
                { ClipID := env.newUUID, StreamID := req.StreamID, Title := req.Title,
                  StartTime := req.StartTime, EndTime := req.EndTime,
                  Duration := duration, URL := clipURL cfg env.newUUID,
                  CreatedAt := env.now }) ∧
          (∀ clip, env.getDoc env.newUUID = Except.ok () →
            env.dataTo (env.toDoc
                { ClipID := env.newUUID, StreamID := req.StreamID, Title := req.Title,
                  StartTime := req.StartTime, EndTime := req.EndTime,
                  Duration := duration, URL := clipURL cfg env.newUUID,
                  CreatedAt := env.now }) = some clip →
            clip.Duration.isFinite = true → clip.CreatedAt.marshalable = true →
            getClipHandler env env.newUUID (createClipHandler env cfg (some req) w₀).2
              = { status := 200, contentType := "application/json",
                  body := Body.json (JSON.clipMetadata clip) }))) := by
  have hfound : ∀ (w : World) (clipID : String) (doc : Document) (clip : ClipMetadata),
      env.getDoc clipID = Except.ok () → w.clips.lookup clipID = some doc →
      env.dataTo doc = some clip →
      clip.Duration.isFinite = true → clip.CreatedAt.marshalable = true →
      getClipHandler env clipID w
        = { status := 200, contentType := "application/json",
            body := Body.json (JSON.clipMetadata clip) } := by
    intro w clipID doc clip hget h hd hfin htime
    simp [getClipHandler, firestoreGet_found env clipID w doc hget h, hd, writeJSON,
      encodeClipMetadata, ClipMetadata.encodable, hfin, htime]
  refine ⟨?_, ?_, ?_, ?_, ?_⟩
  · intro err h
    simp [getClipHandler, h, httpError]
  · intro h
    obtain ⟨err, he⟩ := firestoreGet_absent env clipID w h
    simp [getClipHandler, he, httpError]
  · intro doc hget h hd
    simp [getClipHandler, firestoreGet_found env clipID w doc hget h, hd, httpError]
  · intro doc clip hget h hd
    refine ⟨?_, hfound w clipID doc clip hget h hd⟩
    simp [getClipHandler, firestoreGet_found env clipID w doc hget h, hd, writeJSON]
  · intro h
    obtain ⟨hv, w1, w2, w3, d, h1, h2, h3⟩ := createClipHandler_status_200 env cfg req w₀ h
    refine ⟨d, ?_, ?_⟩
    · rw [(summary_all_ok env cfg req w₀ w1 w2 w3 d hv h1 h2 h3).2]
      rfl
    · intro hset
      have hres := createClipHandler_all_ok env cfg req w₀ w1 w2 w3 d hv h1 h2 h3
      have hclips : (createClipHandler env cfg (some req) w₀).2.clips
          = putDoc env.newUUID (env.toDoc (metadata env cfg req d)) w3.clips := by
        rw [hres, osRemove_clips, osRemove_clips]
        exact firestoreSet_clips_ok env env.newUUID (metadata env cfg req d) w3 hset
      have hl : (createClipHandler env cfg (some req) w₀).2.clips.lookup env.newUUID
          = some (env.toDoc (metadata env cfg req d)) := by
        rw [hclips]
        exact lookup_putDoc _ _ _
      refine ⟨hl, ?_⟩
      intro clip hget hd hfin htime
      exact hfound _ env.newUUID _ clip hget hl hd hfin htime

theorem getClipHandler_lookup_witness :
    (createClipHandler sampleEnv sampleConfig (some sampleRequest) emptyWorld).1.status
      = 200 ∧
    (getClipHandler sampleEnv "0b1c2d3e" emptyWorld).status = 404 ∧
    (getClipHandler sampleEnv "k" { emptyWorld with clips := [("k", junkDoc)] }).status
      = 500 ∧
    getClipHandler sampleEnv "0b1c2d3e"
        (createClipHandler sampleEnv sampleConfig (some sampleRequest) emptyWorld).2
      = { status := 200, contentType := "application/json",
          body := Body.json (JSON.clipMetadata
            { ClipID := "0b1c2d3e", StreamID := "abc123", Title := "",
              StartTime := "00:00:10", EndTime := "00:00:25",
              Duration := { bits := 4624633867356078080 },
              URL := "https://storage.googleapis.com/clips/0b1c2d3e.mp3",
              CreatedAt := { unixNano := 1700000000000000000 } }) } :=
  ⟨by decide,
    (getClipHandler_lookup sampleEnv sampleConfig sampleRequest emptyWorld emptyWorld
      "0b1c2d3e").2.1 rfl,
    (getClipHandler_lookup sampleEnv sampleConfig sampleRequest emptyWorld
      { emptyWorld with clips := [("k", junkDoc)] } "k").2.2.1 junkDoc rfl rfl rfl,
    ((getClipHandler_lookup sampleEnv sampleConfig sampleRequest emptyWorld
      (createClipHandler sampleEnv sampleConfig (some sampleRequest) emptyWorld).2
      "0b1c2d3e").2.2.2.1 _ _ rfl rfl rfl).2 (by decide) (by decide)⟩

/-! ## `listClipsHandler` -/

theorem elems_append (clips : ClipSlice) (clip : ClipMetadata) :
    (clips.append clip).elems = clips.elems ++ [clip] := by
  cases clips <;> rfl

theorem listLoop_elems (env : Env) (docs : List Document) (clips : ClipSlice) :
    (listLoop env docs clips).elems = clips.elems ++ docs.filterMap env.dataTo := by
  induction docs generalizing clips with
  | nil => simp [listLoop]
  | cons doc rest ih =>
    cases hd : env.dataTo doc with
    | none => simp [listLoop, hd, ih, List.filterMap_cons]
    | some clip => simp [listLoop, hd, ih, List.filterMap_cons, elems_append]

/-- The entries written for a slice whose elements can all be encoded. -/
theorem entries_writeJSON (clips : ClipSlice)
    (h : ∀ m ∈ clips.elems, m.encodable = true) :
    (writeJSON (encodeClips clips)).entries = clips.elems := by
  cases clips with
  | none => rfl
  | some xs =>
    have hall : xs.all ClipMetadata.encodable = true := by
      rw [List.all_eq_true]
      exact h
    simp [writeJSON, encodeClips, hall, Response.entries, JSON.items, ClipSlice.elems]

theorem listClipsHandler_entries (env : Env) (yielded : List Document)
    (h : ∀ m ∈ yielded.filterMap env.dataTo, m.encodable = true) :
    (listClipsHandler env yielded).entries = yielded.filterMap env.dataTo := by
  have he : (listLoop env yielded none).elems = yielded.filterMap env.dataTo := by
    rw [listLoop_elems]
    rfl
  unfold listClipsHandler
  rw [entries_writeJSON _ (by rw [he]; exact h), he]

/-- C8 as stated fails: the query can yield documents in descending `created_at` order that
all deserialize while the handler lists none of them.  One record with a NaN duration makes
the encoder refuse the whole slice; the handler discards that error and the body stays
empty. -/
theorem listClipsHandler_nan_record_empty_body :
    [newerDoc, nanDoc].Pairwise (fun a b => newerFirst sampleEnv a b = true) ∧
    ([newerDoc, nanDoc].filterMap sampleEnv.dataTo).map (fun m => m.ClipID) = ["c2", "c3"] ∧
    listClipsHandler sampleEnv [newerDoc, nanDoc]
      = { status := 200, contentType := "application/json", body := Body.empty } ∧
    (listClipsHandler sampleEnv [newerDoc, nanDoc]).entries = [] := by
  decide

/-- C8, amended: when the query yields documents in descending `created_at` order and
every record that deserializes can be encoded (finite duration, creation year within 0 to
9999), `listClipsHandler` lists exactly the deserializable documents of the sequence in
their order, so the entries are in non-increasing order of creation timestamp; a document
that cannot be deserialized is left out alone, and what comes before and after it is
listed as without it.  The slice handed to the encoder holds exactly the deserializable
documents in every case. -/
theorem listClipsHandler_newest_first (env : Env) (yielded : List Document)
    (hdesc : yielded.Pairwise (fun a b => newerFirst env a b = true))
    (henc : ∀ m ∈ yielded.filterMap env.dataTo, m.encodable = true) :
    (listLoop env yielded none).elems = yielded.filterMap env.dataTo ∧
    (listClipsHandler env yielded).status = 200 ∧
    (listClipsHandler env yielded).entries = yielded.filterMap env.dataTo ∧
    (listClipsHandler env yielded).entries.Pairwise
      (fun a b => b.CreatedAt.unixNano ≤ a.CreatedAt.unixNano) ∧
    (∀ pre doc post, yielded = pre ++ doc :: post → env.dataTo doc = none →
      (listClipsHandler env yielded).entries
        = (listClipsHandler env pre).entries ++ (listClipsHandler env post).entries) := by
  refine ⟨by rw [listLoop_elems]; rfl, rfl, listClipsHandler_entries env yielded henc,
    ?_, ?_⟩
  · rw [listClipsHandler_entries env yielded henc, List.pairwise_filterMap]
    refine List.Pairwise.imp ?_ hdesc
    intro a b hab ma hma mb hmb
    simp only [Option.mem_def] at hma hmb
    simpa [newerFirst, hma, hmb] using hab
  · intro pre doc post hy hd
    have hsplit : yielded.filterMap env.dataTo
        = pre.filterMap env.dataTo ++ post.filterMap env.dataTo := by
      rw [hy, List.filterMap_append, List.filterMap_cons_none hd]
    have hpre : ∀ m ∈ pre.filterMap env.dataTo, m.encodable = true := by
      intro m hm
      exact henc m (by rw [hsplit]; exact List.mem_append_left _ hm)
    have hpost : ∀ m ∈ post.filterMap env.dataTo, m.encodable = true := by
      intro m hm
      exact henc m (by rw [hsplit]; exact List.mem_append_right _ hm)
    rw [listClipsHandler_entries env yielded henc, listClipsHandler_entries env pre hpre,
      listClipsHandler_entries env post hpost, hsplit]

theorem listClipsHandler_newest_first_witness :
    ([newerDoc, junkDoc, olderDoc].Pairwise (fun a b => newerFirst sampleEnv a b = true) ∧
      ∀ m ∈ [newerDoc, junkDoc, olderDoc].filterMap sampleEnv.dataTo, m.encodable = true) ∧
    (listLoop sampleEnv [newerDoc, junkDoc, olderDoc] none).elems
      = [newerDoc, junkDoc, olderDoc].filterMap sampleEnv.dataTo ∧
    (listClipsHandler sampleEnv [newerDoc, junkDoc, olderDoc]).status = 200 ∧
    (listClipsHandler sampleEnv [newerDoc, junkDoc, olderDoc]).entries
      = [newerDoc, junkDoc, olderDoc].filterMap sampleEnv.dataTo ∧
    (listClipsHandler sampleEnv [newerDoc, junkDoc, olderDoc]).entries.Pairwise
      (fun a b => b.CreatedAt.unixNano ≤ a.CreatedAt.unixNano) ∧
    (∀ pre doc post, [newerDoc, junkDoc, olderDoc] = pre ++ doc :: post →
      sampleEnv.dataTo doc = none →
      (listClipsHandler sampleEnv [newerDoc, junkDoc, olderDoc]).entries
        = (listClipsHandler sampleEnv pre).entries
          ++ (listClipsHandler sampleEnv post).entries) :=
  ⟨⟨by decide, by decide⟩,
    listClipsHandler_newest_first sampleEnv [newerDoc, junkDoc, olderDoc] (by decide)
      (by decide)⟩

/-- C9 (the code breaks it): with nothing to list the body of `GET /clips` is not a JSON
array.  `clips` is declared as a nil slice and only `append` makes it non-nil, so when the
query yields no document, or only documents that cannot be deserialized, the encoder
writes `null`; the status is 200.  As soon as one document deserializes the body is an
array. -/
theorem listClipsHandler_empty_body_null :
    listClipsHandler sampleEnv []
      = { status := 200, contentType := "application/json", body := Body.json JSON.null } ∧
    listClipsHandler sampleEnv [junkDoc]
      = { status := 200, contentType := "application/json", body := Body.json JSON.null } ∧
    JSON.null.isArray = false ∧
    JSON.null ≠ JSON.array [] ∧
    (listClipsHandler sampleEnv [junkDoc, olderDoc]).body
      = Body.json (JSON.array
          [{ ClipID := "c1", StreamID := "abc123", Title := "first", StartTime := "10",
             EndTime := "25", Duration := { bits := 4624633867356078080 },
             URL := "https://storage.googleapis.com/clips/c1.mp3",
             CreatedAt := { unixNano := 1000000000000 } }]) := by
  decide

/-! ## Scratch paths -/

/-- C10 as stated fails: two distinct non-empty stream identifiers can give the same local
source path, because `filepath.Join` cleans the path.  `abc123` and `./abc123` both give
`/tmp/abc123.mp4`. -/
theorem localRawPath_not_injective :
    ¬ ∀ r₁ r₂ : ClipRequest, r₁.StreamID ≠ "" → r₂.StreamID ≠ "" →
      r₁.StreamID ≠ r₂.StreamID → localRawPath r₁ ≠ localRawPath r₂ := by
  intro h
  exact h sampleRequest dotSlashRequest (by decide) (by decide) (by decide) (by decide)

/-- C10, amended: for two requests whose stream identifiers are distinct and hold no
separator `/`, the local source paths `filepath.Join("/tmp", s + ".mp4")` are distinct;
each is `"/tmp/" + s + ".mp4"`. -/
theorem localRawPath_injective_no_sep (r₁ r₂ : ClipRequest)
    (h₁ : ∀ c ∈ r₁.StreamID.data, c ≠ '/') (h₂ : ∀ c ∈ r₂.StreamID.data, c ≠ '/')
    (hne : r₁.StreamID ≠ r₂.StreamID) :
    localRawPath r₁ ≠ localRawPath r₂ ∧
    localRawPath r₁ = "/tmp/" ++ (r₁.StreamID ++ ".mp4") ∧
    localRawPath r₂ = "/tmp/" ++ (r₂.StreamID ++ ".mp4") := by
  refine ⟨?_, localRawPath_no_sep r₁ h₁, localRawPath_no_sep r₂ h₂⟩
  rw [localRawPath_no_sep r₁ h₁, localRawPath_no_sep r₂ h₂]
  intro heq
  apply hne
  have hd := congrArg String.data heq
  simp only [String.data_append, List.append_cancel_left_eq, List.append_cancel_right_eq]
    at hd
  exact String.ext hd

theorem localRawPath_injective_no_sep_witness :
    ((∀ c ∈ sampleRequest.StreamID.data, c ≠ '/') ∧
      (∀ c ∈ otherStreamRequest.StreamID.data, c ≠ '/') ∧
      sampleRequest.StreamID ≠ otherStreamRequest.StreamID) ∧
    localRawPath sampleRequest ≠ localRawPath otherStreamRequest ∧
    localRawPath sampleRequest = "/tmp/" ++ (sampleRequest.StreamID ++ ".mp4") ∧
    localRawPath otherStreamRequest = "/tmp/" ++ (otherStreamRequest.StreamID ++ ".mp4") :=
  ⟨⟨by decide, by decide, by decide⟩,
    localRawPath_injective_no_sep sampleRequest otherStreamRequest (by decide) (by decide)
      (by decide)⟩


end ClipProcessor
